import Mathlib

/-!
Shallow embedding of the openwebui-importer web server
(webserver/server.py and start_web_server.py).

The request handler is modelled as a pure function from a request and an
environment (the outcomes of the external world: filesystem, JSON parser,
converter subprocess, zip encoder) to an event trace plus an HTTP response.
External library calls whose results the code only inspects (json.load,
subprocess.run, the zip byte encoding) are oracle fields of the environment;
everything the repository code itself does (branching, message construction,
directory walking, header construction) is embedded directly.

Note on string literals: Python exception texts containing apostrophes or
quotes are reproduced without those punctuation characters; only the
punctuation differs, never the words.
-/

set_option autoImplicit false
set_option maxRecDepth 8192

namespace WebServer

/-- Observable side effects of one POST request, in order of occurrence. -/
inductive Event where
  | tmpCreate : Event
  | tmpRemove : Event
  | spawn : List String → Nat → Event
  | zipWrite : List (String × List Nat) → Event
deriving DecidableEq, Repr

/-- The response the handler sends: either send_error with a status code and
detail message, or a success response with explicit headers and a byte body. -/
inductive HttpResponse where
  | httpError : Nat → String → HttpResponse
  | success : List (String × String) → List Nat → HttpResponse
deriving DecidableEq, Repr

/-- Status code carried by a response (send_response(200) on the success path). -/
def statusOf : HttpResponse → Nat
  | .httpError code _ => code
  | .success _ _ => 200

/-- One parsed multipart form item, as exposed by cgi.FieldStorage:
a string value, an optional filename, and the uploaded bytes. -/
structure FormItem where
  value : String
  filename : Option String
  content : List Nat
deriving DecidableEq, Repr

/-- Python truthiness test "not file_item.filename": true when the filename
is absent or the empty string. -/
def filenameBlank (fi : FormItem) : Bool :=
  match fi.filename with
  | none => true
  | some s => s = ""

/-- Model of the Python str.startswith method: the first characters of s
are exactly p. -/
def startswith (s p : String) : Bool :=
  s.data.take p.data.length == p.data

/-- FieldStorage lookup by field name: first binding wins. -/
def lookupForm : List (String × FormItem) → String → Option FormItem
  | [], _ => none
  | (n, it) :: rest, key => if n = key then some it else lookupForm rest key

/-- An incoming POST request: its path, the content-type header
(none when the header is absent), and the parsed multipart form data. -/
structure Request where
  path : String
  contentType : Option String
  form : List (String × FormItem)

mutual
/-- A node of the output directory tree written by the converter. -/
inductive FsTree where
  | file : List Nat → FsTree
  | dir : FsEntries → FsTree

/-- The named entries of one directory. -/
inductive FsEntries where
  | nil : FsEntries
  | cons : String → FsTree → FsEntries → FsEntries
end

/-- Directory entry lookup by name. -/
def lookupEntry : FsEntries → String → Option FsTree
  | .nil, _ => none
  | .cons n t rest, key => if n = key then some t else lookupEntry rest key

mutual
/-- Every directory in the tree has distinct entry names. -/
def treeNodup : FsTree → Bool
  | .file _ => true
  | .dir es => entriesNodup es

/-- Distinctness of entry names, recursively. -/
def entriesNodup : FsEntries → Bool
  | .nil => true
  | .cons n t rest => (lookupEntry rest n).isNone && treeNodup t && entriesNodup rest
end

/-- The plain files of one directory level, as one-component relative paths. -/
def filesOf : FsEntries → List (List String × List Nat)
  | .nil => []
  | .cons n (.file c) rest => ([n], c) :: filesOf rest
  | .cons _ (.dir _) rest => filesOf rest

mutual
/-- Model of os.walk rooted at a directory with entries es, paired with
os.path.relpath: all files below, with their relative paths as name lists.
os.walk (topdown) yields the files of the root first, then recurses into
each subdirectory in entry order. -/
def walkDirEntries (es : FsEntries) : List (List String × List Nat) :=
  filesOf es ++ walkSubdirs es
termination_by (sizeOf es, 1)

/-- Recursion of the walk into the subdirectories of one level. -/
def walkSubdirs : FsEntries → List (List String × List Nat)
  | .nil => []
  | .cons _ (.file _) rest => walkSubdirs rest
  | .cons n (.dir es) rest =>
      (walkDirEntries es).map (fun pc => (n :: pc.1, pc.2)) ++ walkSubdirs rest
termination_by es => (sizeOf es, 0)
end

/-- Walk of an arbitrary tree node: os.walk on a non-directory yields nothing. -/
def walkTree : FsTree → List (List String × List Nat)
  | .file _ => []
  | .dir es => walkDirEntries es

/-- The file found by following a relative path down the tree entries. -/
def fileAtPath : FsEntries → List String → Option (List Nat)
  | _, [] => none
  | es, [n] =>
      match lookupEntry es n with
      | some (.file c) => some c
      | _ => none
  | es, n :: m :: rest =>
      match lookupEntry es n with
      | some (.dir es2) => fileAtPath es2 (m :: rest)
      | _ => none

/-- The file found by following a relative path from a tree node. -/
def fileAtTree : FsTree → List String → Option (List Nat)
  | .file _, _ => none
  | .dir es, p => fileAtPath es p

/-- Outcome of the subprocess.run call when the uv executable exists:
the completed process with its exit code and captured streams. -/
inductive RunResult where
  | completed : Int → String → String → RunResult
  | toolMissing : RunResult
deriving DecidableEq, Repr

/-- Observable outcome of subprocess.run with the 60 second timeout. -/
inductive RunOutcome where
  | completed : Int → String → String → RunOutcome
  | timeout : RunOutcome
  | toolMissing : RunOutcome
deriving DecidableEq, Repr

/-- The fixed timeout passed to subprocess.run. -/
def conversionTimeout : Nat := 60

/-- Outcome of json.load on the file opened in text mode with utf-8
encoding: success; a json.JSONDecodeError (the bytes decode but are not
JSON), which the handler catches; or a UnicodeDecodeError raised while
reading bytes that are not valid utf-8, which the except clause around
json.load does not catch. -/
inductive JsonLoadResult where
  | ok : JsonLoadResult
  | decodeError : String → JsonLoadResult
  | unicodeError : String → JsonLoadResult
deriving DecidableEq, Repr

/-- The external world of one POST request. -/
structure Env where
  /-- Name of the temporary directory handed out by tempfile. -/
  tempDir : String
  /-- Injected OS error when writing the uploaded bytes to disk
  (none in normal operation); raised as an exception. -/
  writeError : Option String
  /-- Behaviour of json.load on the uploaded bytes read back in utf-8
  text mode: ok, a caught JSONDecodeError detail, or an uncaught
  UnicodeDecodeError detail for bytes that are not valid utf-8. -/
  jsonLoad : List Nat → JsonLoadResult
  /-- Result of launching the converter subprocess. -/
  runResult : RunResult
  /-- Wall time the converter needs; beyond the timeout subprocess.run
  raises TimeoutExpired. -/
  converterTime : Nat
  /-- Contents of the chatgpt subdirectory of the output directory after
  the converter ran; none when os.path.exists on it is false. -/
  chatgptDir : Option FsTree
  /-- Byte encoding produced by zipfile for a given entry list. -/
  zipEncode : List (String × List Nat) → List Nat

/-- Combined outcome of subprocess.run(cmd, timeout=60): a missing executable
raises before any process starts; otherwise TimeoutExpired when the converter
outlives the timeout. -/
def effectiveRun (env : Env) : RunOutcome :=
  match env.runResult with
  | .toolMissing => .toolMissing
  | .completed rc out err =>
      if env.converterTime > conversionTimeout then .timeout
      else .completed rc out err

/-- Semantics of the with tempfile.TemporaryDirectory() block: the directory
is created before the body and removed on every exit path, an exception
raised by the body included (the exception is re-raised after cleanup). -/
def withTempDir {α : Type} (body : List Event × Except String α) :
    List Event × Except String α :=
  (Event.tmpCreate :: (body.1 ++ [Event.tmpRemove]), body.2)

/-- Body of the with-block of do_POST: save the upload, validate JSON, run
the converter, package and send the zip. Returns the effect trace inside the
temporary directory and either a response or a raised exception. -/
def insideTemp (env : Env) (userId : String) (fileItem : FormItem) :
    List Event × Except String HttpResponse :=
  match env.writeError with
  | some m => ([], .error m)
  | none =>
    match env.jsonLoad fileItem.content with
    | .unicodeError m => ([], .error m)
    | .decodeError e => ([], .ok (.httpError 400 ("Invalid JSON file: " ++ e)))
    | .ok =>
      let inputFile := env.tempDir ++ "/conversations.json"
      let outputDir := env.tempDir ++ "/output"
      let cmd := ["uv", "run", "convert_chatgpt.py",
                  "--userid", userId,
                  "--output-dir", outputDir,
                  inputFile]
      let spawnEv := Event.spawn cmd conversionTimeout
      match effectiveRun env with
      | .toolMissing =>
          ([], .ok (.httpError 500 "uv command not found. Please install uv."))
      | .timeout =>
          ([spawnEv], .ok (.httpError 500 "Conversion timeout"))
      | .completed rc out err =>
          if rc ≠ 0 then
            let msg := if err ≠ "" then err
                       else if out ≠ "" then out
                       else "Conversion failed"
            ([spawnEv], .ok (.httpError 500 ("Conversion error: " ++ msg)))
          else
            match env.chatgptDir with
            | none =>
                ([spawnEv], .ok (.httpError 500 "No output files generated"))
            | some tree =>
                let entries := (walkTree tree).map
                  (fun pc => (String.intercalate "/" pc.1, pc.2))
                let zipContent := env.zipEncode entries
                ([spawnEv, Event.zipWrite entries],
                 .ok (.success
                   [("Content-Type", "application/zip"),
                    ("Content-Disposition",
                     "attachment; filename=\"chatgpt_converted_" ++ userId
                       ++ ".zip\""),
                    ("Content-Length", toString zipContent.length)]
                   zipContent))

/-- Body of the try-block of do_POST for the /convert path: content-type
check, form field checks, then the temporary-directory scope. Accessing
startswith on an absent content-type header raises AttributeError. -/
def postBody (req : Request) (env : Env) :
    List Event × Except String HttpResponse :=
  match req.contentType with
  | none =>
      ([], .error "AttributeError: NoneType object has no attribute startswith")
  | some ct =>
    if ¬ startswith ct "multipart/form-data" then
      ([], .ok (.httpError 400 "Expected multipart/form-data"))
    else
      match lookupForm req.form "userId" with
      | none => ([], .ok (.httpError 400 "Missing userId field"))
      | some uidItem =>
        match lookupForm req.form "chatFile" with
        | none => ([], .ok (.httpError 400 "Missing chatFile field"))
        | some fileItem =>
          if filenameBlank fileItem then
            ([], .ok (.httpError 400 "No file selected"))
          else
            withTempDir (insideTemp env uidItem.value fileItem)

/-- The do_POST handler: path dispatch, the try-block body, and the broad
exception handler that turns any raised exception into a generic 500. -/
def do_POST (req : Request) (env : Env) : List Event × HttpResponse :=
  if req.path = "/convert" then
    match postBody req env with
    | (evs, .ok r) => (evs, r)
    | (evs, .error e) =>
        (evs, .httpError 500 ("Internal server error: " ++ e))
  else
    ([], .httpError 404 "Endpoint not found")

/-- Result of open + read on webserver/index.html: content, a
FileNotFoundError, or some other OS or decode error (only the first
error kind is caught by the handler). -/
inductive ReadResult where
  | ok : String → ReadResult
  | fileNotFound : ReadResult
  | otherError : String → ReadResult
deriving DecidableEq, Repr

/-- UTF-8 bytes of a string, as content.encode in the handler. -/
def utf8Bytes (s : String) : List Nat :=
  s.toUTF8.toList.map (fun b => b.toNat)

/-- The do_GET handler: serves the static form on the root and form paths,
404 elsewhere and on FileNotFoundError; any other read error escapes
uncaught (do_GET has no broad exception handler). -/
def do_GET (path : String) (readResult : ReadResult) :
    Except String HttpResponse :=
  if path = "/" ∨ path = "/webserver/index.html" ∨ path = "/" then
    match readResult with
    | .ok content =>
        .ok (.success [("Content-type", "text/html; charset=utf-8")]
          (utf8Bytes content))
    | .fileNotFound => .ok (.httpError 404 "index.html not found")
    | .otherError m => .error m
  else
    .ok (.httpError 404 "File not found")

end WebServer

namespace Launcher

/-- The fixed set of files the launcher requires. -/
def requiredFiles : List String :=
  ["webserver/index.html", "convert_chatgpt.py", "webserver/server.py"]

/-- The external world of one launcher invocation. -/
structure LauncherEnv where
  /-- Result of os.path.exists for each path. -/
  fileExists : String → Bool
  /-- Whether the uv version probe succeeds (false covers both a nonzero
  exit and a missing executable). -/
  uvOk : Bool
  /-- The optional first command-line argument, with the outcome of int()
  on it: none when absent, some none when int() raises ValueError. -/
  portArg : Option (Option Int)
  /-- Whether subprocess.run of the server raises. -/
  serverRaises : Option String

/-- The two lines printed when the uv probe fails. -/
def uvWarnLines : List String :=
  ["Warning: uv command not found. Make sure uv is installed and in your PATH.",
   "You can install it with: pip install uv"]

/-- Embedding of check_dependencies: the printed lines and the boolean it
returns. -/
def check_dependencies (env : LauncherEnv) : List String × Bool :=
  if requiredFiles.filter (fun f => ! env.fileExists f) ≠ [] then
    (["Error: Missing required files: " ++ String.intercalate ", "
        (requiredFiles.filter (fun f => ! env.fileExists f))],
     false)
  else if ¬ env.uvOk then
    (uvWarnLines, false)
  else
    ([], true)

/-- The launcher outcome: console lines in order, whether the browser timer
was scheduled, whether the server subprocess was started, and the value
returned to sys.exit. -/
structure MainResult where
  printed : List String
  timerScheduled : Bool
  serverSpawned : Bool
  exitCode : Int
deriving Repr

/-- The two banner lines printed before any check. -/
def bannerLines : List String :=
  ["ChatGPT to Open-WebUI Converter Web Server",
   "============================================="]

/-- Embedding of the launcher main function. -/
def main (env : LauncherEnv) : MainResult :=
  if ¬ (check_dependencies env).2 then
    { printed := bannerLines ++ (check_dependencies env).1
        ++ ["Please fix the above issues and try again."],
      timerScheduled := false, serverSpawned := false, exitCode := 1 }
  else
    match env.portArg with
    | some none =>
        { printed := bannerLines ++ ["Invalid port number"],
          timerScheduled := false, serverSpawned := false, exitCode := 1 }
    | _ =>
        match env.serverRaises with
        | some m =>
            { printed := bannerLines ++ ["Error starting server: " ++ m],
              timerScheduled := true, serverSpawned := true, exitCode := 1 }
        | none =>
            { printed := bannerLines,
              timerScheduled := true, serverSpawned := true, exitCode := 0 }

end Launcher

namespace WebServer

/-- On the /convert path the handler is the try-block body with the broad
exception handler around it. -/
theorem do_POST_convert (req : Request) (env : Env)
    (hpath : req.path = "/convert") :
    do_POST req env =
      (match postBody req env with
       | (evs, .ok r) => (evs, r)
       | (evs, .error e) =>
           (evs, .httpError 500 ("Internal server error: " ++ e))) := by
  simp [do_POST, hpath]

/-- Once the content-type and form checks pass, postBody is the
temporary-directory scope around the conversion body. -/
theorem postBody_reaches_temp (req : Request) (env : Env) (ct : String)
    (u fi : FormItem)
    (hct : req.contentType = some ct)
    (hmp : startswith ct "multipart/form-data" = true)
    (hu : lookupForm req.form "userId" = some u)
    (hf : lookupForm req.form "chatFile" = some fi)
    (hb : filenameBlank fi = false) :
    postBody req env = withTempDir (insideTemp env u.value fi) := by
  simp [postBody, hct, hmp, hu, hf, hb]

/-- C4: a multipart POST to /convert lacking the userId field, lacking the
chatFile field, or whose chatFile has a blank filename, is answered with a
400 and no converter subprocess is spawned. -/
theorem C4_missing_fields_400_no_spawn (req : Request) (env : Env)
    (ct : String)
    (hpath : req.path = "/convert")
    (hct : req.contentType = some ct)
    (hmp : startswith ct "multipart/form-data" = true)
    (hmiss : lookupForm req.form "userId" = none
      ∨ lookupForm req.form "chatFile" = none
      ∨ ∃ fi, lookupForm req.form "chatFile" = some fi
          ∧ filenameBlank fi = true) :
    statusOf (do_POST req env).2 = 400
      ∧ ∀ c t, Event.spawn c t ∉ (do_POST req env).1 := by
  rw [do_POST_convert req env hpath]
  rcases hmiss with h | h | ⟨fi, hfi, hblank⟩
  · simp [postBody, hct, hmp, h, statusOf]
  · cases hu : lookupForm req.form "userId" with
    | none => simp [postBody, hct, hmp, hu, statusOf]
    | some u => simp [postBody, hct, hmp, hu, h, statusOf]
  · cases hu : lookupForm req.form "userId" with
    | none => simp [postBody, hct, hmp, hu, statusOf]
    | some u => simp [postBody, hct, hmp, hu, hfi, hblank, statusOf]

/-- C3 (amended): for a multipart POST to /convert with both fields
present, an upload that decodes as utf-8 but fails JSON parsing
(json.JSONDecodeError, caught) is answered 400 with the parse detail,
while an upload whose bytes are not valid utf-8 raises UnicodeDecodeError
past the json clause and the broad handler answers 500; in both cases no
converter subprocess is spawned. -/
theorem C3_invalid_json_400_no_spawn (req : Request) (env : Env)
    (ct : String) (u fi : FormItem)
    (hpath : req.path = "/convert")
    (hct : req.contentType = some ct)
    (hmp : startswith ct "multipart/form-data" = true)
    (hu : lookupForm req.form "userId" = some u)
    (hf : lookupForm req.form "chatFile" = some fi)
    (hb : filenameBlank fi = false)
    (hw : env.writeError = none) :
    (∀ e, env.jsonLoad fi.content = .decodeError e →
        (do_POST req env).2 = .httpError 400 ("Invalid JSON file: " ++ e))
      ∧ (∀ m, env.jsonLoad fi.content = .unicodeError m →
          (do_POST req env).2
            = .httpError 500 ("Internal server error: " ++ m))
      ∧ (env.jsonLoad fi.content ≠ .ok →
          ∀ c t, Event.spawn c t ∉ (do_POST req env).1) := by
  rw [do_POST_convert req env hpath,
    postBody_reaches_temp req env ct u fi hct hmp hu hf hb]
  refine ⟨?_, ?_, ?_⟩
  · intro e hjson
    simp [insideTemp, withTempDir, hw, hjson]
  · intro m hjson
    simp [insideTemp, withTempDir, hw, hjson]
  · intro hne c t
    cases hjson : env.jsonLoad fi.content with
    | ok => exact absurd hjson hne
    | decodeError e => simp [insideTemp, withTempDir, hw, hjson]
    | unicodeError m => simp [insideTemp, withTempDir, hw, hjson]

/-- Concrete userId form item used in witnesses. -/
def sampleUser : FormItem :=
  { value := "alice", filename := none, content := [] }

/-- Concrete uploaded-file form item used in witnesses. -/
def sampleFile : FormItem :=
  { value := "", filename := some "conversations.json", content := [123, 125] }

/-- Concrete full form used in witnesses. -/
def sampleForm : List (String × FormItem) :=
  [("userId", sampleUser), ("chatFile", sampleFile)]

/-- Concrete converter output tree used in witnesses: a file at the top
level and one inside a subdirectory. -/
def sampleTree : FsTree :=
  .dir (.cons "a.json" (.file [65, 66])
    (.cons "sub" (.dir (.cons "b.json" (.file [67]) .nil)) .nil))

/-- Concrete benign environment used in witnesses. -/
def sampleEnv : Env :=
  { tempDir := "/tmp/t1"
    writeError := none
    jsonLoad := fun _ => .ok
    runResult := .completed 0 "" ""
    converterTime := 1
    chatgptDir := some sampleTree
    zipEncode := fun es => (es.map (fun e => e.2)).flatten }

/-- Concrete POST request to /convert with the given form. -/
def convertReq (form : List (String × FormItem)) : Request :=
  { path := "/convert"
    contentType := some "multipart/form-data; boundary=xyz"
    form := form }

/-- C4 witness: a concrete multipart request missing userId gets a 400 and
spawns nothing. -/
theorem C4_missing_fields_witness :
    statusOf (do_POST (convertReq [("chatFile", sampleFile)]) sampleEnv).2 = 400
      ∧ ∀ c t, Event.spawn c t
          ∉ (do_POST (convertReq [("chatFile", sampleFile)]) sampleEnv).1 :=
  C4_missing_fields_400_no_spawn (convertReq [("chatFile", sampleFile)])
    sampleEnv "multipart/form-data; boundary=xyz" rfl rfl (by decide)
    (Or.inl rfl)

/-- Environment whose JSON parse fails, used in the C3 witness. -/
def badJsonEnv : Env :=
  { sampleEnv with
    jsonLoad := fun _ => .decodeError "Expecting value: line 1 column 1 (char 0)" }

/-- C3 witness: a concrete request whose body fails JSON validation gets the
400 with the parse detail, the 500 branch is vacuous for it, and nothing is
spawned. -/
theorem C3_invalid_json_witness :
    (∀ e, badJsonEnv.jsonLoad sampleFile.content = .decodeError e →
        (do_POST (convertReq sampleForm) badJsonEnv).2
          = .httpError 400 ("Invalid JSON file: " ++ e))
      ∧ (∀ m, badJsonEnv.jsonLoad sampleFile.content = .unicodeError m →
          (do_POST (convertReq sampleForm) badJsonEnv).2
            = .httpError 500 ("Internal server error: " ++ m))
      ∧ (badJsonEnv.jsonLoad sampleFile.content ≠ .ok →
          ∀ c t, Event.spawn c t
            ∉ (do_POST (convertReq sampleForm) badJsonEnv).1) :=
  C3_invalid_json_400_no_spawn (convertReq sampleForm) badJsonEnv
    "multipart/form-data; boundary=xyz" sampleUser sampleFile
    rfl rfl (by decide) rfl rfl (by decide) rfl

/-- Upload whose single byte 0xff is not valid utf-8. -/
def undecodableFile : FormItem :=
  { value := "", filename := some "conversations.json", content := [255] }

/-- Environment where json.load on the 0xff upload raises UnicodeDecodeError,
as CPython does for bytes that are not valid utf-8. -/
def undecodableEnv : Env :=
  { sampleEnv with
    jsonLoad := fun bs =>
      if bs = [255] then
        .unicodeError
          "utf-8 codec cannot decode byte 0xff in position 0: invalid start byte"
      else .ok }

/-- C3 counterexample: an upload whose bytes are not valid JSON because they
are not even valid utf-8 is answered 500, not the 400 the claim requires. -/
theorem C3_undecodable_counterexample :
    statusOf (do_POST
        (convertReq [("userId", sampleUser), ("chatFile", undecodableFile)])
        undecodableEnv).2 = 500
      ∧ ¬ statusOf (do_POST
          (convertReq [("userId", sampleUser), ("chatFile", undecodableFile)])
          undecodableEnv).2 = 400 := by
  decide

/-- C5: when the converter completes within the timeout with a nonzero exit
code, the response is a 500 whose detail is the captured stderr, else the
captured stdout, else a generic message; no zip archive is written. -/
theorem C5_nonzero_exit_500 (req : Request) (env : Env)
    (ct : String) (u fi : FormItem) (rc : Int) (out err : String)
    (hpath : req.path = "/convert")
    (hct : req.contentType = some ct)
    (hmp : startswith ct "multipart/form-data" = true)
    (hu : lookupForm req.form "userId" = some u)
    (hf : lookupForm req.form "chatFile" = some fi)
    (hb : filenameBlank fi = false)
    (hw : env.writeError = none)
    (hjson : env.jsonLoad fi.content = .ok)
    (hrun : env.runResult = .completed rc out err)
    (htime : env.converterTime ≤ conversionTimeout)
    (hrc : rc ≠ 0) :
    (do_POST req env).2
        = .httpError 500 ("Conversion error: "
            ++ (if err ≠ "" then err
                else if out ≠ "" then out
                else "Conversion failed"))
      ∧ ∀ es, Event.zipWrite es ∉ (do_POST req env).1 := by
  rw [do_POST_convert req env hpath,
    postBody_reaches_temp req env ct u fi hct hmp hu hf hb]
  have hnt : ¬ env.converterTime > conversionTimeout := not_lt.mpr htime
  simp [insideTemp, withTempDir, hw, hjson, effectiveRun, hrun, hnt, hrc]

/-- C5 witness: a concrete failing converter run yields the 500 carrying the
captured stderr and writes no zip. -/
theorem C5_nonzero_exit_witness :
    (do_POST (convertReq sampleForm)
        { sampleEnv with runResult := .completed 1 "so" "boom" }).2
        = .httpError 500 ("Conversion error: "
            ++ (if "boom" ≠ "" then "boom"
                else if "so" ≠ "" then "so"
                else "Conversion failed"))
      ∧ ∀ es, Event.zipWrite es
          ∉ (do_POST (convertReq sampleForm)
              { sampleEnv with runResult := .completed 1 "so" "boom" }).1 :=
  C5_nonzero_exit_500 (convertReq sampleForm)
    { sampleEnv with runResult := .completed 1 "so" "boom" }
    "multipart/form-data; boundary=xyz" sampleUser sampleFile 1 "so" "boom"
    rfl rfl (by decide) rfl rfl (by decide) rfl rfl rfl (by decide) (by decide)

/-- C6: when the converter outlives the fixed 60 second timeout, the
response is the 500 with the fixed timeout message, independent of the
captured streams. -/
theorem C6_timeout_500 (req : Request) (env : Env)
    (ct : String) (u fi : FormItem) (rc : Int) (out err : String)
    (hpath : req.path = "/convert")
    (hct : req.contentType = some ct)
    (hmp : startswith ct "multipart/form-data" = true)
    (hu : lookupForm req.form "userId" = some u)
    (hf : lookupForm req.form "chatFile" = some fi)
    (hb : filenameBlank fi = false)
    (hw : env.writeError = none)
    (hjson : env.jsonLoad fi.content = .ok)
    (hrun : env.runResult = .completed rc out err)
    (htime : conversionTimeout < env.converterTime) :
    (do_POST req env).2 = .httpError 500 "Conversion timeout" := by
  rw [do_POST_convert req env hpath,
    postBody_reaches_temp req env ct u fi hct hmp hu hf hb]
  simp [insideTemp, withTempDir, hw, hjson, effectiveRun, hrun, htime]

/-- C6 witness: a concrete converter needing 61 seconds yields the timeout
message even though its streams are nonempty. -/
theorem C6_timeout_witness :
    (do_POST (convertReq sampleForm)
        { sampleEnv with runResult := .completed 0 "partial out" "partial err",
                         converterTime := 61 }).2
      = .httpError 500 "Conversion timeout" :=
  C6_timeout_500 (convertReq sampleForm)
    { sampleEnv with runResult := .completed 0 "partial out" "partial err",
                     converterTime := 61 }
    "multipart/form-data; boundary=xyz" sampleUser sampleFile 0
    "partial out" "partial err"
    rfl rfl (by decide) rfl rfl (by decide) rfl rfl rfl (by decide)

/-- C7 (amended): a present but non-multipart content-type is rejected with
the 400; the amendment excludes the absent-header case, settled by the
counterexample below. -/
theorem C7_nonmultipart_400 (req : Request) (env : Env) (ct : String)
    (hpath : req.path = "/convert")
    (hct : req.contentType = some ct)
    (hmp : startswith ct "multipart/form-data" = false) :
    (do_POST req env).2 = .httpError 400 "Expected multipart/form-data" := by
  rw [do_POST_convert req env hpath]
  simp [postBody, hct, hmp]

/-- C7 witness: a concrete text/plain POST to /convert gets the 400. -/
theorem C7_nonmultipart_witness :
    (do_POST { path := "/convert", contentType := some "text/plain", form := [] }
        sampleEnv).2
      = .httpError 400 "Expected multipart/form-data" :=
  C7_nonmultipart_400
    { path := "/convert", contentType := some "text/plain", form := [] }
    sampleEnv "text/plain" rfl rfl (by decide)

/-- Request to /convert with no content-type header at all. -/
def noContentTypeReq : Request :=
  { path := "/convert", contentType := none, form := [] }

/-- C7 counterexample: with the content-type header absent, the startswith
attribute access raises, the broad handler answers 500, and the response is
not in the 400 class as the claim requires. -/
theorem C7_missing_header_counterexample :
    statusOf (do_POST noContentTypeReq sampleEnv).2 = 500
      ∧ ¬ (400 ≤ statusOf (do_POST noContentTypeReq sampleEnv).2
            ∧ statusOf (do_POST noContentTypeReq sampleEnv).2 < 500) := by
  decide

/-- Truth of "the result is a sent response with this status code":
false both for other codes and for an uncaught exception. -/
def isErrorStatus (res : Except String HttpResponse) (code : Nat) : Bool :=
  match res with
  | .ok (.httpError c _) => c = code
  | _ => false

/-- C8 (amended): on the root or form path, a readable file yields the 200
HTML response with the file bytes, and a FileNotFoundError yields the 404;
the amendment drops the other read failures, settled by the counterexample
below. -/
theorem C8_get_static (p : String) (r : ReadResult)
    (hp : p = "/" ∨ p = "/webserver/index.html") :
    (∀ content, r = .ok content →
        do_GET p r = .ok (.success
          [("Content-type", "text/html; charset=utf-8")] (utf8Bytes content)))
      ∧ (r = .fileNotFound →
          do_GET p r = .ok (.httpError 404 "index.html not found")) := by
  rcases hp with hp | hp <;> subst hp <;>
    exact ⟨fun content hc => by subst hc; simp [do_GET],
           fun hc => by subst hc; simp [do_GET]⟩

/-- C8 witness: a concrete readable index.html on the root path gives the
200 HTML response, and the file-not-found case gives the 404. -/
theorem C8_get_static_witness :
    (do_GET "/" (.ok "<html></html>")
        = .ok (.success [("Content-type", "text/html; charset=utf-8")]
            (utf8Bytes "<html></html>")))
      ∧ (do_GET "/" .fileNotFound
          = .ok (.httpError 404 "index.html not found")) :=
  ⟨(C8_get_static "/" (.ok "<html></html>") (Or.inl rfl)).1 "<html></html>" rfl,
   (C8_get_static "/" .fileNotFound (Or.inl rfl)).2 rfl⟩

/-- C8 counterexample: a read failure other than FileNotFoundError (here a
permission error) is not caught, so no 404 response is produced, against
the claim that any read failure yields a 404. -/
theorem C8_other_error_counterexample :
    do_GET "/" (.otherError "PermissionError: Errno 13")
        = .error "PermissionError: Errno 13"
      ∧ isErrorStatus (do_GET "/" (.otherError "PermissionError: Errno 13")) 404
          = false :=
  ⟨rfl, rfl⟩

/-- Headers of a response (empty for an error response). -/
def responseHeaders : HttpResponse → List (String × String)
  | .httpError _ _ => []
  | .success headers _ => headers

/-- C10: once a request is accepted, the userId string is used verbatim:
the converter command line carries it unchanged as the argument after
the userid flag, and on the success path the Content-Disposition header
embeds it character for character, for any string the parser yields. -/
theorem C10_userid_verbatim (req : Request) (env : Env)
    (ct : String) (u fi : FormItem) (rc : Int) (out err : String)
    (hpath : req.path = "/convert")
    (hct : req.contentType = some ct)
    (hmp : startswith ct "multipart/form-data" = true)
    (hu : lookupForm req.form "userId" = some u)
    (hf : lookupForm req.form "chatFile" = some fi)
    (hb : filenameBlank fi = false)
    (hw : env.writeError = none)
    (hjson : env.jsonLoad fi.content = .ok)
    (hrun : env.runResult = .completed rc out err) :
    Event.spawn ["uv", "run", "convert_chatgpt.py",
        "--userid", u.value,
        "--output-dir", env.tempDir ++ "/output",
        env.tempDir ++ "/conversations.json"] conversionTimeout
      ∈ (do_POST req env).1
    ∧ (∀ tree, env.converterTime ≤ conversionTimeout → rc = 0 →
        env.chatgptDir = some tree →
        ("Content-Disposition",
         "attachment; filename=\"chatgpt_converted_" ++ u.value ++ ".zip\"")
          ∈ responseHeaders (do_POST req env).2) := by
  rw [do_POST_convert req env hpath,
    postBody_reaches_temp req env ct u fi hct hmp hu hf hb]
  by_cases ht : env.converterTime > conversionTimeout
  · constructor
    · simp [insideTemp, withTempDir, hw, hjson, effectiveRun, hrun, ht]
    · intro tree h1
      exact absurd h1 (not_le.mpr ht)
  · by_cases hrc : rc = 0
    · subst hrc
      cases hdir : env.chatgptDir with
      | none =>
          constructor
          · simp [insideTemp, withTempDir, hw, hjson, effectiveRun, hrun, ht,
              hdir]
          · intro tree _ _ hsome
            exact absurd hsome (by simp)
      | some tree0 =>
          constructor
          · simp [insideTemp, withTempDir, hw, hjson, effectiveRun, hrun, ht,
              hdir]
          · intro tree _ _ hsome
            injection hsome with htree
            subst htree
            simp [insideTemp, withTempDir, hw, hjson, effectiveRun, hrun, ht,
              hdir, responseHeaders]
    · constructor
      · simp [insideTemp, withTempDir, hw, hjson, effectiveRun, hrun, ht, hrc]
      · intro tree _ h0
        exact absurd h0 hrc

/-- The broad exception handler changes the response, never the effect
trace: on the /convert path the events of do_POST are those of postBody. -/
theorem do_POST_events (req : Request) (env : Env)
    (hpath : req.path = "/convert") :
    (do_POST req env).1 = (postBody req env).1 := by
  rw [do_POST_convert req env hpath]
  rcases postBody req env with ⟨evs, r⟩
  cases r <;> rfl

/-- Inside the temporary-directory scope no temp-directory event occurs:
the body only spawns the converter and writes the zip. -/
theorem insideTemp_no_tmp (env : Env) (uid : String) (fi : FormItem) :
    Event.tmpCreate ∉ (insideTemp env uid fi).1
      ∧ Event.tmpRemove ∉ (insideTemp env uid fi).1 := by
  cases hwe : env.writeError with
  | some m => simp [insideTemp, hwe]
  | none =>
    cases hjp : env.jsonLoad fi.content with
    | unicodeError m => simp [insideTemp, hwe, hjp]
    | decodeError e => simp [insideTemp, hwe, hjp]
    | ok =>
      cases her : effectiveRun env with
      | toolMissing => simp [insideTemp, hwe, hjp, her]
      | timeout => simp [insideTemp, hwe, hjp, her]
      | completed rc out err =>
        by_cases hrc : rc = 0
        · cases hcd : env.chatgptDir with
          | none => simp [insideTemp, hwe, hjp, her, hrc, hcd]
          | some tree => simp [insideTemp, hwe, hjp, her, hrc, hcd]
        · simp [insideTemp, hwe, hjp, her, hrc]

/-- The event trace of postBody: either the temporary directory is never
created, or the trace opens with its creation and closes with its removal,
with no temp-directory event in between. -/
theorem postBody_tmp_shape (req : Request) (env : Env) :
    (postBody req env).1 = []
      ∨ ∃ mid, (postBody req env).1
            = Event.tmpCreate :: (mid ++ [Event.tmpRemove])
          ∧ Event.tmpCreate ∉ mid ∧ Event.tmpRemove ∉ mid := by
  cases hct : req.contentType with
  | none => exact Or.inl (by simp [postBody, hct])
  | some ct =>
    by_cases hmp : startswith ct "multipart/form-data" = true
    · cases hu : lookupForm req.form "userId" with
      | none => exact Or.inl (by simp [postBody, hct, hmp, hu])
      | some u =>
        cases hf : lookupForm req.form "chatFile" with
        | none => exact Or.inl (by simp [postBody, hct, hmp, hu, hf])
        | some fi =>
          by_cases hb : filenameBlank fi = true
          · exact Or.inl (by simp [postBody, hct, hmp, hu, hf, hb])
          · have hb2 : filenameBlank fi = false := by
              revert hb
              cases filenameBlank fi <;> simp
            right
            refine ⟨(insideTemp env u.value fi).1, ?_,
              (insideTemp_no_tmp env u.value fi).1,
              (insideTemp_no_tmp env u.value fi).2⟩
            simp [postBody, hct, hmp, hu, hf, hb2, withTempDir]
    · exact Or.inl (by simp [postBody, hct, hmp])

/-- C2: on every execution of the handler, either the temporary directory
is never created (the request was rejected first), or the trace shows its
creation, then the work, then its removal as the final filesystem event of
the scope: success, client-error abort, subprocess failure and raised
exceptions alike. -/
theorem C2_tempdir_cleanup (req : Request) (env : Env) :
    (do_POST req env).1 = []
      ∨ ∃ mid, (do_POST req env).1
            = Event.tmpCreate :: (mid ++ [Event.tmpRemove])
          ∧ Event.tmpCreate ∉ mid ∧ Event.tmpRemove ∉ mid := by
  by_cases hpath : req.path = "/convert"
  · rw [do_POST_events req env hpath]
    exact postBody_tmp_shape req env
  · exact Or.inl (by simp [do_POST, hpath])

/-- Destructuring of the nodup invariant at a cons cell. -/
theorem entriesNodup_cons {n : String} {t : FsTree} {rest : FsEntries}
    (h : entriesNodup (.cons n t rest) = true) :
    lookupEntry rest n = none ∧ treeNodup t = true
      ∧ entriesNodup rest = true := by
  simp only [entriesNodup, Bool.and_eq_true, Option.isNone_iff_eq_none] at h
  exact ⟨h.1.1, h.1.2, h.2⟩

/-- A tree found by entry lookup inside a nodup entry list is itself nodup. -/
theorem treeNodup_lookupEntry (es : FsEntries) (n : String) (t : FsTree)
    (h : entriesNodup es = true) (hl : lookupEntry es n = some t) :
    treeNodup t = true :=
  match es with
  | .nil => by simp [lookupEntry] at hl
  | .cons m t0 rest => by
      obtain ⟨h1, h2, h3⟩ := entriesNodup_cons h
      rw [lookupEntry] at hl
      by_cases he : m = n
      · rw [if_pos he] at hl
        have ht : t0 = t := Option.some.inj hl
        exact ht ▸ h2
      · rw [if_neg he] at hl
        exact treeNodup_lookupEntry rest n t h3 hl

/-- Membership in the file list of one level characterised by entry lookup,
given distinct entry names. -/
theorem mem_filesOf_iff (es : FsEntries) (p : List String) (c : List Nat)
    (h : entriesNodup es = true) :
    ((p, c) ∈ filesOf es
      ↔ ∃ n, p = [n] ∧ lookupEntry es n = some (.file c)) :=
  match es with
  | .nil => by simp [filesOf, lookupEntry]
  | .cons m t rest => by
    obtain ⟨h1, h2, h3⟩ := entriesNodup_cons h
    have IH := mem_filesOf_iff rest p c h3
    cases t with
    | file c0 =>
      constructor
      · intro hm
        simp only [filesOf] at hm
        rcases List.mem_cons.mp hm with heq | hm2
        · have hp : p = [m] := congrArg Prod.fst heq
          have hc : c = c0 := congrArg Prod.snd heq
          refine ⟨m, hp, ?_⟩
          rw [lookupEntry, if_pos rfl, hc]
        · obtain ⟨n2, hp, hl⟩ := IH.mp hm2
          have hne : m ≠ n2 := by
            intro he
            rw [← he] at hl
            rw [h1] at hl
            exact Option.noConfusion hl
          refine ⟨n2, hp, ?_⟩
          rw [lookupEntry, if_neg hne]
          exact hl
      · rintro ⟨n2, hp, hl⟩
        rw [lookupEntry] at hl
        by_cases he : m = n2
        · rw [if_pos he] at hl
          have hfc : FsTree.file c0 = FsTree.file c := Option.some.inj hl
          have hc : c0 = c := by injection hfc
          subst hc
          subst hp
          rw [he]
          simp only [filesOf]
          exact List.mem_cons_self _ _
        · rw [if_neg he] at hl
          simp only [filesOf]
          exact List.mem_cons_of_mem _ (IH.mpr ⟨n2, hp, hl⟩)
    | dir es2 =>
      simp only [filesOf]
      constructor
      · intro hm
        obtain ⟨n2, hp, hl⟩ := IH.mp hm
        have hne : m ≠ n2 := by
          intro he
          rw [← he] at hl
          rw [h1] at hl
          exact Option.noConfusion hl
        refine ⟨n2, hp, ?_⟩
        rw [lookupEntry, if_neg hne]
        exact hl
      · rintro ⟨n2, hp, hl⟩
        rw [lookupEntry] at hl
        by_cases he : m = n2
        · rw [if_pos he] at hl
          have hco : FsTree.dir es2 = FsTree.file c := Option.some.inj hl
          cases hco
        · rw [if_neg he] at hl
          exact IH.mpr ⟨n2, hp, hl⟩

/-- Membership in the recursive part of the walk characterised by entry
lookup of a subdirectory, given distinct entry names. -/
theorem mem_walkSubdirs_iff (es : FsEntries) (p : List String) (c : List Nat)
    (h : entriesNodup es = true) :
    ((p, c) ∈ walkSubdirs es
      ↔ ∃ n q es2, p = n :: q ∧ lookupEntry es n = some (.dir es2)
          ∧ (q, c) ∈ walkDirEntries es2) :=
  match es with
  | .nil => by simp [walkSubdirs, lookupEntry]
  | .cons m t rest => by
    obtain ⟨h1, h2, h3⟩ := entriesNodup_cons h
    have IH := mem_walkSubdirs_iff rest p c h3
    cases t with
    | file c0 =>
      rw [walkSubdirs]
      constructor
      · intro hm
        obtain ⟨n2, q, es2, hp, hl, hq⟩ := IH.mp hm
        have hne : m ≠ n2 := by
          intro he
          rw [← he] at hl
          rw [h1] at hl
          exact Option.noConfusion hl
        refine ⟨n2, q, es2, hp, ?_, hq⟩
        rw [lookupEntry, if_neg hne]
        exact hl
      · rintro ⟨n2, q, es2, hp, hl, hq⟩
        rw [lookupEntry] at hl
        by_cases he : m = n2
        · rw [if_pos he] at hl
          have hco : FsTree.file c0 = FsTree.dir es2 := Option.some.inj hl
          cases hco
        · rw [if_neg he] at hl
          exact IH.mpr ⟨n2, q, es2, hp, hl, hq⟩
    | dir es2 =>
      rw [walkSubdirs]
      constructor
      · intro hm
        rcases List.mem_append.mp hm with hm1 | hm2
        · rcases List.mem_map.mp hm1 with ⟨pc, hpc, heq⟩
          have hp : p = m :: pc.1 := (congrArg Prod.fst heq).symm
          have hc : c = pc.2 := (congrArg Prod.snd heq).symm
          refine ⟨m, pc.1, es2, hp, by rw [lookupEntry, if_pos rfl], ?_⟩
          rw [hc]
          exact hpc
        · obtain ⟨n2, q, es2b, hp, hl, hq⟩ := IH.mp hm2
          have hne : m ≠ n2 := by
            intro he
            rw [← he] at hl
            rw [h1] at hl
            exact Option.noConfusion hl
          refine ⟨n2, q, es2b, hp, ?_, hq⟩
          rw [lookupEntry, if_neg hne]
          exact hl
      · rintro ⟨n2, q, es2b, hp, hl, hq⟩
        rw [lookupEntry] at hl
        by_cases he : m = n2
        · rw [if_pos he] at hl
          have hco : FsTree.dir es2 = FsTree.dir es2b := Option.some.inj hl
          have hes : es2 = es2b := by injection hco
          apply List.mem_append.mpr
          left
          apply List.mem_map.mpr
          refine ⟨(q, c), ?_, ?_⟩
          · rw [hes]
            exact hq
          · rw [hp, he]
        · rw [if_neg he] at hl
          exact List.mem_append.mpr (Or.inr (IH.mpr ⟨n2, q, es2b, hp, hl, hq⟩))

/-- The central walk correctness lemma: under distinct entry names, the
walk contains a pair exactly when the path leads to a file with exactly
that content. -/
theorem walk_mem_iff (p : List String) (es : FsEntries) (c : List Nat)
    (h : entriesNodup es = true) :
    ((p, c) ∈ walkDirEntries es ↔ fileAtPath es p = some c) :=
  match p with
  | [] => by
      rw [walkDirEntries, fileAtPath]
      constructor
      · intro hm
        rcases List.mem_append.mp hm with hm1 | hm2
        · obtain ⟨n, hp, _⟩ := (mem_filesOf_iff es [] c h).mp hm1
          exact absurd hp (by simp)
        · obtain ⟨n, q, es2, hp, _, _⟩ := (mem_walkSubdirs_iff es [] c h).mp hm2
          exact absurd hp (by simp)
      · intro hf
        exact absurd hf (by simp)
  | [n] => by
      rw [walkDirEntries, fileAtPath]
      constructor
      · intro hm
        rcases List.mem_append.mp hm with hm1 | hm2
        · obtain ⟨n2, hp, hl⟩ := (mem_filesOf_iff es [n] c h).mp hm1
          have hn : n = n2 := by injection hp
          rw [← hn] at hl
          rw [hl]
        · obtain ⟨n2, q, es2, hp, hl, hq⟩ :=
            (mem_walkSubdirs_iff es [n] c h).mp hm2
          have hq0 : q = [] := by
            injection hp with _ h2
            exact h2.symm
          subst hq0
          have hnd2 : entriesNodup es2 = true :=
            treeNodup_lookupEntry es n2 (.dir es2) h hl
          have hcontra := (walk_mem_iff [] es2 c hnd2).mp hq
          rw [fileAtPath] at hcontra
          exact Option.noConfusion hcontra
      · intro hf
        cases hl : lookupEntry es n with
        | none =>
            rw [hl] at hf
            exact absurd hf (by simp)
        | some t =>
            cases t with
            | file c0 =>
                rw [hl] at hf
                have hc : c0 = c := by simpa using hf
                apply List.mem_append.mpr
                left
                apply (mem_filesOf_iff es [n] c h).mpr
                refine ⟨n, rfl, ?_⟩
                rw [hl, hc]
            | dir es2 =>
                rw [hl] at hf
                exact absurd hf (by simp)
  | n :: m :: rest => by
      rw [walkDirEntries, fileAtPath]
      constructor
      · intro hm
        rcases List.mem_append.mp hm with hm1 | hm2
        · obtain ⟨n2, hp, _⟩ := (mem_filesOf_iff es (n :: m :: rest) c h).mp hm1
          injection hp with _ h2
          exact absurd h2 (by simp)
        · obtain ⟨n2, q, es2, hp, hl, hq⟩ :=
            (mem_walkSubdirs_iff es (n :: m :: rest) c h).mp hm2
          have hn : n = n2 := by injection hp
          have hqe : m :: rest = q := by injection hp
          rw [← hn] at hl
          have hnd2 : entriesNodup es2 = true :=
            treeNodup_lookupEntry es n (.dir es2) h hl
          rw [hl]
          rw [← hqe] at hq
          exact (walk_mem_iff (m :: rest) es2 c hnd2).mp hq
      · intro hf
        cases hl : lookupEntry es n with
        | none =>
            rw [hl] at hf
            exact absurd hf (by simp)
        | some t =>
            cases t with
            | file c0 =>
                rw [hl] at hf
                exact absurd hf (by simp)
            | dir es2 =>
                rw [hl] at hf
                have hnd2 : entriesNodup es2 = true :=
                  treeNodup_lookupEntry es n (.dir es2) h hl
                apply List.mem_append.mpr
                right
                apply (mem_walkSubdirs_iff es (n :: m :: rest) c h).mpr
                exact ⟨n, m :: rest, es2, rfl, hl,
                  (walk_mem_iff (m :: rest) es2 c hnd2).mpr hf⟩

/-- C1: on the success path (valid multipart upload, valid JSON, converter
exits 0 within the timeout, chatgpt output subdirectory present) the
response is the 200 zip: application/zip content type, attachment
disposition embedding the userId, content length equal to the byte length
of the body, body the zip encoding of the walked output files; the zip
entries written are exactly the files under the chatgpt subdirectory at
their relative paths. -/
theorem C1_success_zip (req : Request) (env : Env)
    (ct : String) (u fi : FormItem) (out err : String) (tree : FsTree)
    (hpath : req.path = "/convert")
    (hct : req.contentType = some ct)
    (hmp : startswith ct "multipart/form-data" = true)
    (hu : lookupForm req.form "userId" = some u)
    (hf : lookupForm req.form "chatFile" = some fi)
    (hb : filenameBlank fi = false)
    (hw : env.writeError = none)
    (hjson : env.jsonLoad fi.content = .ok)
    (hrun : env.runResult = .completed 0 out err)
    (htime : env.converterTime ≤ conversionTimeout)
    (hdir : env.chatgptDir = some tree)
    (hnodup : treeNodup tree = true) :
    (do_POST req env).2
        = .success
            [("Content-Type", "application/zip"),
             ("Content-Disposition",
              "attachment; filename=\"chatgpt_converted_" ++ u.value
                ++ ".zip\""),
             ("Content-Length",
              toString (env.zipEncode ((walkTree tree).map
                (fun pc => (String.intercalate "/" pc.1, pc.2)))).length)]
            (env.zipEncode ((walkTree tree).map
              (fun pc => (String.intercalate "/" pc.1, pc.2))))
      ∧ Event.zipWrite ((walkTree tree).map
          (fun pc => (String.intercalate "/" pc.1, pc.2)))
          ∈ (do_POST req env).1
      ∧ ∀ p c, ((p, c) ∈ walkTree tree ↔ fileAtTree tree p = some c) := by
  rw [do_POST_convert req env hpath,
    postBody_reaches_temp req env ct u fi hct hmp hu hf hb]
  have hnt : ¬ env.converterTime > conversionTimeout := not_lt.mpr htime
  refine ⟨?_, ?_, ?_⟩
  · simp [insideTemp, withTempDir, hw, hjson, effectiveRun, hrun, hnt, hdir]
  · simp [insideTemp, withTempDir, hw, hjson, effectiveRun, hrun, hnt, hdir]
  · intro p c
    cases tree with
    | file c0 => simp [walkTree, fileAtTree]
    | dir es =>
        have hnd : entriesNodup es = true := hnodup
        rw [walkTree, fileAtTree]
        exact walk_mem_iff p es c hnd

/-- C1 witness: a concrete successful conversion of the sample tree yields
the 200 zip response with matching headers, writes the zip entries, and the
walked entries coincide with the files of the tree. -/
theorem C1_success_zip_witness :
    (do_POST (convertReq sampleForm) sampleEnv).2
        = .success
            [("Content-Type", "application/zip"),
             ("Content-Disposition",
              "attachment; filename=\"chatgpt_converted_" ++ sampleUser.value
                ++ ".zip\""),
             ("Content-Length",
              toString (sampleEnv.zipEncode ((walkTree sampleTree).map
                (fun pc => (String.intercalate "/" pc.1, pc.2)))).length)]
            (sampleEnv.zipEncode ((walkTree sampleTree).map
              (fun pc => (String.intercalate "/" pc.1, pc.2))))
      ∧ Event.zipWrite ((walkTree sampleTree).map
          (fun pc => (String.intercalate "/" pc.1, pc.2)))
          ∈ (do_POST (convertReq sampleForm) sampleEnv).1
      ∧ ∀ p c, ((p, c) ∈ walkTree sampleTree
          ↔ fileAtTree sampleTree p = some c) :=
  C1_success_zip (convertReq sampleForm) sampleEnv
    "multipart/form-data; boundary=xyz" sampleUser sampleFile "" "" sampleTree
    rfl rfl (by decide) rfl rfl (by decide) rfl rfl rfl (by decide) rfl
    (by decide)

/-- C10 witness: a concrete accepted request spawns the converter with the
userId verbatim and the success response embeds it in the disposition
header. -/
theorem C10_userid_verbatim_witness :
    Event.spawn ["uv", "run", "convert_chatgpt.py",
        "--userid", sampleUser.value,
        "--output-dir", sampleEnv.tempDir ++ "/output",
        sampleEnv.tempDir ++ "/conversations.json"] conversionTimeout
      ∈ (do_POST (convertReq sampleForm) sampleEnv).1
    ∧ (∀ tree, sampleEnv.converterTime ≤ conversionTimeout → (0 : Int) = 0 →
        sampleEnv.chatgptDir = some tree →
        ("Content-Disposition",
         "attachment; filename=\"chatgpt_converted_" ++ sampleUser.value
           ++ ".zip\"")
          ∈ responseHeaders (do_POST (convertReq sampleForm) sampleEnv).2) :=
  C10_userid_verbatim (convertReq sampleForm) sampleEnv
    "multipart/form-data; boundary=xyz" sampleUser sampleFile 0 "" ""
    rfl rfl (by decide) rfl rfl (by decide) rfl rfl rfl

end WebServer

namespace Launcher

/-- C9: when a required file is missing or the uv probe fails, the launcher
prints the failure reason (every line check_dependencies printed appears in
the output), schedules no browser timer, spawns no server subprocess, and
exits 1. -/
theorem C9_launcher_abort (env : LauncherEnv)
    (h : (∃ f, f ∈ requiredFiles ∧ env.fileExists f = false)
      ∨ env.uvOk = false) :
    (main env).exitCode = 1
      ∧ (main env).timerScheduled = false
      ∧ (main env).serverSpawned = false
      ∧ (check_dependencies env).1 ≠ []
      ∧ ∀ m ∈ (check_dependencies env).1, m ∈ (main env).printed := by
  have hchk : (check_dependencies env).2 = false
      ∧ (check_dependencies env).1 ≠ [] := by
    by_cases hm : requiredFiles.filter (fun f => ! env.fileExists f) = []
    · have huv : env.uvOk = false := by
        rcases h with ⟨f, hf, hfe⟩ | huv
        · exfalso
          have hmem : f ∈ requiredFiles.filter (fun f => ! env.fileExists f) := by
            rw [List.mem_filter]
            exact ⟨hf, by rw [hfe]; rfl⟩
          rw [hm] at hmem
          simp at hmem
        · exact huv
      have hcd : check_dependencies env = (uvWarnLines, false) := by
        rw [check_dependencies, if_neg (not_not_intro hm), if_pos]
        rw [huv]
        simp
      rw [hcd]
      simp [uvWarnLines]
    · have hcd : check_dependencies env =
          (["Error: Missing required files: " ++ String.intercalate ", "
              (requiredFiles.filter (fun f => ! env.fileExists f))],
           false) := by
        rw [check_dependencies, if_pos hm]
      rw [hcd]
      simp
  have hcond : ¬ (check_dependencies env).2 = true := by
    rw [hchk.1]
    simp
  have hmain : main env =
      { printed := bannerLines ++ (check_dependencies env).1
          ++ ["Please fix the above issues and try again."],
        timerScheduled := false, serverSpawned := false, exitCode := 1 } := by
    rw [main, if_pos hcond]
  rw [hmain]
  refine ⟨rfl, rfl, rfl, hchk.2, ?_⟩
  intro m hm
  simp only [List.mem_append]
  exact Or.inl (Or.inr hm)

/-- Launcher environment with one required file absent, for the witness. -/
def missingFileEnv : LauncherEnv :=
  { fileExists := fun f => f ≠ "convert_chatgpt.py"
    uvOk := true
    portArg := none
    serverRaises := none }

/-- C9 witness: with convert_chatgpt.py absent, the launcher exits 1, starts
nothing, and its output contains the check failure lines. -/
theorem C9_launcher_abort_witness :
    (main missingFileEnv).exitCode = 1
      ∧ (main missingFileEnv).timerScheduled = false
      ∧ (main missingFileEnv).serverSpawned = false
      ∧ (check_dependencies missingFileEnv).1 ≠ []
      ∧ ∀ m ∈ (check_dependencies missingFileEnv).1,
          m ∈ (main missingFileEnv).printed :=
  C9_launcher_abort missingFileEnv
    (Or.inl ⟨"convert_chatgpt.py", by decide, by decide⟩)

end Launcher
